import Mathlib

/-!
Shallow embedding of the musicfig core (device protocol codec, device driver
read path, tag registry/factory, polling loop, plugin dispatch framework),
translated from the Python sources:

- `src/musicfig/lego.py`     (Dimensions codec and driver)
- `src/musicfig/main.py`     (MainLoop polling thread)
- `src/musicfig/nfc_tag.py`  (NFCTag classes, NFCTagStore, NFCTagManager)
- `src/musicfig/plugins/core.py` (BasePlugin dispatch framework)

Python exceptions are modelled with `Except PyExn`; Python object identity
(relevant because `NFCTag` defines no `__eq__`/`__hash__`, so set membership
and "same instance" are identity-based) is modelled with an allocation
counter: every constructed tag carries a fresh `objId`.
-/

namespace Musicfig

/-- Python exceptions that occur on the paths modelled here.
`nameError` stands for the `UnboundLocalError`/`NameError` raised when a
local variable is read before assignment. -/
inductive PyExn where
  | usbTimeoutError
  | usbError
  | keyError (key : String)
  | typeError
  | nameError
  | valueError
  | nfcTagOperationError
  | argumentError
deriving Repr, DecidableEq

/-- lego.py: `DimensionsTagEvent = namedtuple(..., ["was_removed", "pad_num", "identifier"])`. -/
structure DimensionsTagEvent where
  wasRemoved : Bool
  padNum : Nat
  identifier : String
deriving Repr, DecidableEq

/-! ## Device protocol codec (lego.py) -/

/-- Lowercase hex digit, as produced by `binascii.hexlify`. -/
def hexDigit (n : Nat) : Char :=
  if n < 10 then Char.ofNat (48 + n) else Char.ofNat (87 + n)

/-- Two lowercase hex characters for one byte. -/
def byteHexChars (b : Nat) : List Char :=
  [hexDigit (b / 16 % 16), hexDigit (b % 16)]

/-- `binascii.hexlify(bytearray(bs)).decode("utf-8")` as a character list. -/
def hexlifyChars (bs : List Nat) : List Char :=
  (bs.map byteHexChars).flatten

/-- lego.py line 268: `identifier.replace('000000', '')`.
Python `str.replace` removes every non-overlapping occurrence in one
left-to-right scan, not only a leading run. -/
def replace000000 : List Char → List Char
  | '0' :: '0' :: '0' :: '0' :: '0' :: '0' :: rest => replace000000 rest
  | c :: rest => c :: replace000000 rest
  | [] => []

/-- Whether the string contains an occurrence of `"000000"`. -/
def contains000000 : List Char → Bool
  | '0' :: '0' :: '0' :: '0' :: '0' :: '0' :: _ => true
  | _ :: rest => contains000000 rest
  | [] => false

/-- Modelled from the spec: strip only a leading run of `"000000"` from the
hex-encoded UID ("with a leading `\"000000\"` run stripped", "only a leading
run is removed, the rest of the UID string is preserved"). Used to compare
the spec's normalization with the source's `replace000000`. -/
def stripLeading000000 : List Char → List Char
  | '0' :: '0' :: '0' :: '0' :: '0' :: '0' :: rest => stripLeading000000 rest
  | l => l

/-- Body of `Dimensions.get_tag_event` after a successful `dev.read`:
frame with byte 0 ≠ 0x56 is discarded, byte 2 is the pad index, byte 5
non-zero means removal, bytes 6..12 are the hex-encoded UID. -/
def decodePacket (bytelist : List Nat) : Option DimensionsTagEvent :=
  if bytelist = [] then none
  else if bytelist.getD 0 0 ≠ 0x56 then none
  else
    let uidBytes := (bytelist.drop 6).take 7
    let identifier := String.mk (replace000000 (hexlifyChars uidBytes))
    some ⟨bytelist.getD 5 0 != 0, bytelist.getD 2 0, identifier⟩

/-- `Dimensions.get_tag_event`, parametrised by the outcome of
`self.dev.read(0x81, 32, timeout=10)`. The source catches
`usb.core.USBTimeoutError` and returns `None` silently, and then catches
every other `Exception`, logs it, and also returns `None`: no read failure
propagates to the caller. -/
def get_tag_event : Except PyExn (List Nat) → Except PyExn (Option DimensionsTagEvent)
  | .error .usbTimeoutError => .ok none
  | .error _ => .ok none
  | .ok packet => .ok (decodePacket packet)

/-- A 32-byte inbound event frame: byte 0 = 0x56, byte 2 = pad index,
byte 5 = removal flag, bytes 6..12 = the 7 UID bytes, zero elsewhere. -/
def mkFrame (padNum removedByte : Nat) (uid : List Nat) : List Nat :=
  0x56 :: 0 :: padNum :: 0 :: 0 :: removedByte :: (uid ++ List.replicate 19 0)

/-- One step of the running checksum in `Dimensions.send_command`:
add the word, subtract 256 once if the sum reached 256. -/
def checksumStep (checksum word : Nat) : Nat :=
  let c := checksum + word
  if 256 ≤ c then c - 256 else c

/-- The checksum accumulated over the command bytes in `send_command`. -/
def commandChecksum (command : List Nat) : Nat :=
  List.foldl checksumStep 0 command

/-- `Dimensions.send_command`: append the checksum, then zero-pad the
message to 32 bytes. Returns the byte list written to the device. -/
def send_command (command : List Nat) : List Nat :=
  let message := command ++ [commandChecksum command]
  message ++ List.replicate (32 - message.length) 0

/-- An (R, G, B) colour triple as indexed by `colour[0]`, `colour[1]`,
`colour[2]` in the source. -/
structure Colour where
  r : Nat
  g : Nat
  b : Nat
deriving Repr, DecidableEq

/-- colors.py `PURPLE = [100, 0, 100]`. -/
def PURPLE : Colour := ⟨100, 0, 100⟩

/-- `Dimensions.flash_pad_color`: the source sends
`[0x55, 0x09, 0xc3, 0x03, pad, on_length, off_length, pulse_count,
colour[0], colour[1], colour[1]]` — note `colour[1]` appears twice;
`colour[2]` is never sent. -/
def flash_pad_color (pad onLength offLength pulseCount : Nat) (colour : Colour) : List Nat :=
  send_command [0x55, 0x09, 0xc3, 0x03, pad, onLength, offLength, pulseCount,
                colour.r, colour.g, colour.g]

/-- Modelled from the spec: the message `flashColor` is claimed to send —
header `[0x55,0x09,0xC3,0x03,pad,onTicks,offTicks,pulseCount,R,G,B]`,
then the sum of the header bytes modulo 256, then zeros up to 32 bytes. -/
def flashColorSpecMessage (pad onLength offLength pulseCount : Nat) (colour : Colour) : List Nat :=
  let header := [0x55, 0x09, 0xc3, 0x03, pad, onLength, offLength, pulseCount,
                 colour.r, colour.g, colour.b]
  let message := header ++ [header.sum % 256]
  message ++ List.replicate (32 - message.length) 0

/-! ## Tag registry and factory (nfc_tag.py) -/

/-- Python values appearing as tag identifiers and attribute values.
`builtinId` is the Python builtin function `id`, which
`NFCTagManager.nfc_tag_from_model` passes as the identifier argument
(the bare name `id` there is not the record's id). -/
inductive PyVal where
  | str (s : String)
  | intVal (n : Int)
  | builtinId
deriving Repr, DecidableEq

/-- The concrete `NFCTag` subclasses defined in nfc_tag.py. -/
inductive TagClass where
  | unknown
  | legacy
  | webhook
  | slack
  | twinkly
deriving Repr, DecidableEq

/-- The `required_attributes` class attribute of each tag class. -/
def requiredAttributes : TagClass → List String
  | .webhook => ["url"]
  | .slack => ["text"]
  | .twinkly => ["pattern"]
  | _ => []

/-- A constructed tag object. `objId` is its Python object identity. -/
structure NFCTag where
  objId : Nat
  cls : TagClass
  identifier : PyVal
  name : Option String
  description : Option String
  attributes : List (String × PyVal)
deriving Repr, DecidableEq

/-- `NFCTag.__init__` / `_verify_attributes`: raises `KeyError` on the first
required attribute key missing from `attributes`, else constructs the tag. -/
def mkNFCTag (objId : Nat) (cls : TagClass) (identifier : PyVal)
    (name description : Option String) (attributes : List (String × PyVal)) :
    Except PyExn NFCTag :=
  match (requiredAttributes cls).find? (fun k => (attributes.lookup k).isNone) with
  | some missing => .error (.keyError missing)
  | none => .ok ⟨objId, cls, identifier, name, description, attributes⟩

/-- A persisted `NFCTagModel` row, with `attr` already JSON-decoded
(`get_attr_object`). -/
structure NFCTagModelRecord where
  id : String
  name : Option String
  description : Option String
  type : Option String
  attr : List (String × PyVal)
deriving Repr, DecidableEq

/-- `TAG_REGISTRY_MAP.get(type, LegacyTag)`: the factory registered for a
type string, defaulting to `LegacyTag` for an unregistered or absent type. -/
def tagRegistryGet : Option String → TagClass
  | some "webhook" => .webhook
  | some "slack" => .slack
  | some "twinkly" => .twinkly
  | _ => .legacy

/-- `NFCTagManager.nfc_tag_from_model`: builds the tag from the registered
class with the record's name, description and attributes. The first
(identifier) argument in the source is the bare name `id` — the Python
builtin function — not the record's id. -/
def nfc_tag_from_model (objId : Nat) (m : NFCTagModelRecord) : Except PyExn NFCTag :=
  mkNFCTag objId (tagRegistryGet m.type) PyVal.builtinId m.name m.description m.attr

/-- The state of `NFCTagManager`: the backing store rows, the `self.tags`
dict created in `__init__` (never read or written by `get_nfc_tag_by_id`),
and the allocation counter for object identities. -/
structure NFCTagManagerState where
  store : List NFCTagModelRecord
  tags : List (String × NFCTag)
  nextObjId : Nat
deriving Repr, DecidableEq

/-- `NFCTagStore.get_nfc_tag_by_id`: first row whose id matches. -/
def storeGetById (store : List NFCTagModelRecord) (id : String) : Option NFCTagModelRecord :=
  store.find? (fun m => m.id == id)

/-- `NFCTagManager.get_nfc_tag_by_id`: fetch the row; with no row build
`UnknownTag(id)`, else build via `nfc_tag_from_model`. Every call
constructs a fresh tag object (the allocation counter advances); the
`tags` dict is not consulted or updated. Construction failures
(`KeyError` from attribute validation) propagate. -/
def get_nfc_tag_by_id (st : NFCTagManagerState) (id : String) :
    Except PyExn NFCTag × NFCTagManagerState :=
  let objId := st.nextObjId
  let st2 := { st with nextObjId := objId + 1 }
  match storeGetById st.store id with
  | none => (mkNFCTag objId .unknown (.str id) none none [], st2)
  | some m => (nfc_tag_from_model objId m, st2)

/-! ## Polling loop (main.py `MainLoop`) -/

/-- main.py `MainLoop.USB_ERROR_THRESHOLD`. -/
def USB_ERROR_THRESHOLD : Nat := 5

/-- A `pub.sendMessage` of `tag.added` / `tag.removed` carrying the raw
event and the resolved tag (identified by its object identity). -/
inductive PubEvent where
  | tagAdded (ev : DimensionsTagEvent) (tagObjId : Nat)
  | tagRemoved (ev : DimensionsTagEvent) (tagObjId : Nat)
deriving Repr, DecidableEq

/-- State of the `MainLoop` thread. `tagEventVar` models the Python local
variable `tag_event` of `run`: `none` while still unbound, `some none`
after a poll that returned `None`, `some (some ev)` after a poll that
returned an event. `errorFlashes` records the pads flashed with the error
colour. -/
structure MainLoopState where
  mgr : NFCTagManagerState
  activeTags : List Nat
  doLoop : Bool
  errorCount : Nat
  tagEventVar : Option (Option DimensionsTagEvent)
  published : List PubEvent
  errorFlashes : List Nat
deriving Repr, DecidableEq

/-- The state right after `MainLoop.__init__` at the top of `run`:
empty active set, `do_loop = True`, `error_count = 0`, `tag_event` unbound. -/
def initMainLoopState (mgr : NFCTagManagerState) : MainLoopState :=
  ⟨mgr, [], true, 0, none, [], []⟩

/-- `MainLoop.update_active_tags`: `set.discard` on removal (no error if
absent), `set.add` otherwise. Python set membership for `NFCTag` is object
identity, so the set is a duplicate-free list of object ids. -/
def update_active_tags (active : List Nat) (wasRemoved : Bool) (tagObjId : Nat) : List Nat :=
  if wasRemoved then active.erase tagObjId
  else if tagObjId ∈ active then active else active ++ [tagObjId]

/-- The `try` block of `MainLoop.run` handling a non-`None` event:
resolve the identifier, update the active set, publish the domain event;
on any exception, flash the pad with the error colour and keep looping. -/
def processTagEvent (s : MainLoopState) (ev : DimensionsTagEvent) : MainLoopState :=
  match get_nfc_tag_by_id s.mgr ev.identifier with
  | (.error _, mgr2) =>
      { s with mgr := mgr2, errorFlashes := s.errorFlashes ++ [ev.padNum] }
  | (.ok tag, mgr2) =>
      { s with
        mgr := mgr2,
        activeTags := update_active_tags s.activeTags ev.wasRemoved tag.objId,
        published := s.published ++
          [if ev.wasRemoved then PubEvent.tagRemoved ev tag.objId
           else PubEvent.tagAdded ev tag.objId] }

/-- Invariant of the loop state: every object identity kept in the active
set was allocated earlier, i.e. is below the manager's allocation counter.
It holds for the initial state and is preserved by event processing. -/
def allocInvariant (s : MainLoopState) : Prop :=
  ∀ x ∈ s.activeTags, x < s.mgr.nextObjId

/-- What one call of `self.dimensions.get_tag_event()` inside `run` does:
returns `None`, returns an event, or raises `usb.core.USBError`. -/
inductive PollOutcome where
  | timeout
  | event (ev : DimensionsTagEvent)
  | usbFault
deriving Repr, DecidableEq

/-- Result of executing loop iterations: either a state, or a crash of the
thread by an uncaught exception. -/
inductive StepResult where
  | ok (s : MainLoopState)
  | crashed (e : PyExn) (s : MainLoopState)
deriving Repr, DecidableEq

/-- The state carried by a step result. -/
def StepResult.state : StepResult → MainLoopState
  | .ok s => s
  | .crashed _ s => s

/-- The uncaught exception of a step result, if any. -/
def StepResult.crashException : StepResult → Option PyExn
  | .ok _ => none
  | .crashed e _ => some e

/-- One iteration of the `while self.do_loop` body of `MainLoop.run`.
On `USBError` the counter is incremented; below the threshold the loop
sleeps and falls through, at the threshold `stop_loop()` is called.
Control then reaches `if tag_event is None`: with `tag_event` still
unbound this raises (`UnboundLocalError`), and with a stale event bound
from an earlier iteration the stale event is processed again. The error
counter is never reset anywhere in `run`. -/
def loopIter (s : MainLoopState) (p : PollOutcome) : StepResult :=
  match p with
  | .timeout => .ok { s with tagEventVar := some none }
  | .event ev => .ok (processTagEvent { s with tagEventVar := some (some ev) } ev)
  | .usbFault =>
      let s1 := { s with errorCount := s.errorCount + 1 }
      let s2 := if s1.errorCount < USB_ERROR_THRESHOLD then s1
                else { s1 with doLoop := false }
      match s2.tagEventVar with
      | none => .crashed .nameError s2
      | some none => .ok s2
      | some (some ev) => .ok (processTagEvent s2 ev)

/-- Runs `MainLoop.run` against a finite stream of poll outcomes, checking
`do_loop` at the top of each iteration as the source does. -/
def runLoop : MainLoopState → List PollOutcome → StepResult
  | s, [] => .ok s
  | s, p :: ps =>
      if s.doLoop then
        match loopIter s p with
        | .ok s2 => runLoop s2 ps
        | .crashed e s2 => .crashed e s2
      else .ok s

/-! ## Plugin dispatch framework (plugins/core.py `BasePlugin`) -/

/-- The Python classes a plugin can declare as `TAG_CLASS`: the `NFCTag`
base class or one of its concrete subclasses. -/
inductive PyClass where
  | nfcTagBase
  | unknownTagClass
  | legacyTagClass
  | webhookTagClass
  | slackTagClass
  | twinklyTagClass
deriving Repr, DecidableEq

/-- The class of a constructed tag. -/
def classOfTag : TagClass → PyClass
  | .unknown => .unknownTagClass
  | .legacy => .legacyTagClass
  | .webhook => .webhookTagClass
  | .slack => .slackTagClass
  | .twinkly => .twinklyTagClass

/-- `isinstance(tag, c)`: every concrete tag class directly extends
`NFCTag`, so this holds exactly for the base class and the tag's own class. -/
def isInstanceOf (t : TagClass) (c : PyClass) : Bool :=
  c == .nfcTagBase || c == classOfTag t

/-- `isinstance(nfc_tag, self.tag_class)` where `self.tag_class` may be
`None`: `isinstance` with `None` as the second argument raises `TypeError`. -/
def isinstanceTagCheck (t : TagClass) : Option PyClass → Except PyExn Bool
  | none => .error .typeError
  | some c => .ok (isInstanceOf t c)

/-- Whether a class is `NFCTag` or one of its subclasses; every value of
`PyClass` satisfies this. -/
def issubclassOfNFCTag : PyClass → Bool := fun _ => true

/-- A plugin: its declared `tag_class` (possibly `None`) and what its
`_get_success_pad_color` returns. -/
structure BasePlugin where
  tagClass : Option PyClass
  successColor : Colour
deriving Repr, DecidableEq

/-- `BasePlugin.__init__`: accepts an absent (`None`) `TAG_CLASS`; a
declared class must extend `NFCTag` or `ValueError` is raised. -/
def basePluginInit (tagClassAttr : Option PyClass) : Except PyExn BasePlugin :=
  match tagClassAttr with
  | some c => if issubclassOfNFCTag c then .ok ⟨some c, PURPLE⟩ else .error .valueError
  | none => .ok ⟨none, PURPLE⟩

/-- A `pub.sendMessage` performed by a dispatch wrapper: topic, the tag
event, and the `color` keyword argument if one is passed. -/
structure PublishedMessage where
  topic : String
  tagEvent : DimensionsTagEvent
  color : Option Colour
deriving Repr, DecidableEq

/-- `BasePlugin.dispatch_add_error_event`: no colour argument. -/
def dispatch_add_error_event (ev : DimensionsTagEvent) : PublishedMessage :=
  ⟨"handler_response.add.error", ev, none⟩

/-- `BasePlugin.dispatch_add_success_event`: carries
`self._get_success_pad_color()`. -/
def dispatch_add_success_event (p : BasePlugin) (ev : DimensionsTagEvent) : PublishedMessage :=
  ⟨"handler_response.add.success", ev, some p.successColor⟩

/-- `BasePlugin.dispatch_remove_success_event`: no colour argument. -/
def dispatch_remove_success_event (ev : DimensionsTagEvent) : PublishedMessage :=
  ⟨"handler_response.remove.success", ev, none⟩

/-- `BasePlugin.dispatch_remove_error_event`: no colour argument. -/
def dispatch_remove_error_event (ev : DimensionsTagEvent) : PublishedMessage :=
  ⟨"handler_response.remove.error", ev, none⟩

/-- Behaviour of the overridable hook (`_on_tag_added` / `_on_tag_removed`)
when invoked: returns normally, raises `NFCTagOperationError`, or raises
some other exception. -/
inductive HookOutcome where
  | success
  | raisesOperationError
  | raisesOther (e : PyExn)
deriving Repr, DecidableEq

/-- Observable outcome of `BasePlugin._on_tag_event`: whether the hook was
invoked and which handler-response message (if any) was published. -/
structure DispatchResult where
  hookInvoked : Bool
  response : Option PublishedMessage
deriving Repr, DecidableEq

/-- `BasePlugin._on_tag_event` (reached from `on_tag_added` /
`on_tag_removed`): filter by `isinstance(nfc_tag, self.tag_class)` and
return silently on mismatch; invoke the hook; catch
`NFCTagOperationError` and publish the error message; otherwise publish
the success message. Any other exception from the hook propagates. -/
def on_tag_event (p : BasePlugin) (isRemove : Bool) (ev : DimensionsTagEvent)
    (tagCls : TagClass) (hook : HookOutcome) : Except PyExn DispatchResult :=
  match isinstanceTagCheck tagCls p.tagClass with
  | .error e => .error e
  | .ok false => .ok ⟨false, none⟩
  | .ok true =>
      match hook with
      | .success =>
          .ok ⟨true, some (if isRemove then dispatch_remove_success_event ev
                           else dispatch_add_success_event p ev)⟩
      | .raisesOperationError =>
          .ok ⟨true, some (if isRemove then dispatch_remove_error_event ev
                           else dispatch_add_error_event ev)⟩
      | .raisesOther e => .error e

/-! ## Theorems -/

/-- C2: evaluation of the code at the failing input. A non-timeout
`USBError` raised by `dev.read` (device disconnected, permission lost) is
swallowed by `get_tag_event`, which returns the no-event result `None`
exactly as for a read timeout: no distinguishable failure reaches the
calling loop, whose `except USBError` branch is therefore unreachable. -/
theorem C2_hard_fault_swallowed :
    get_tag_event (.error .usbError) = .ok none ∧
    get_tag_event (.error .usbTimeoutError) = .ok none ∧
    get_tag_event (.error .usbError) = get_tag_event (.error .usbTimeoutError) :=
  ⟨rfl, rfl, rfl⟩

/-- C7 counterexample: for UID bytes `04 00 00 00 12 00 00` the code
decodes the identifier `"04120000"` — the interior `"000000"` run was
removed — whereas stripping only a leading `"000000"` run (the claim's
normalization) leaves `"04000000120000"` unchanged, so the rest of the
UID string is not preserved. -/
theorem C7_interior_zero_run_removed :
    get_tag_event (.ok (mkFrame 2 0 [4, 0, 0, 0, 18, 0, 0]))
        = .ok (some ⟨false, 2, "04120000"⟩) ∧
    String.mk (stripLeading000000 (hexlifyChars [4, 0, 0, 0, 18, 0, 0]))
        = "04000000120000" ∧
    ("04120000" : String) ≠ "04000000120000" :=
  ⟨rfl, rfl, by decide⟩

/-- Helper: the source's normalization leaves a string containing no
`"000000"` occurrence unchanged. -/
theorem replace000000_of_not_contains (l : List Char) (h : contains000000 l = false) :
    replace000000 l = l := by
  induction l using replace000000.induct with
  | case1 rest ih => simp [contains000000] at h
  | case2 c rest hne ih =>
      rw [replace000000]
      · rw [contains000000] at h
        · rw [ih h]
        · exact hne
      · exact hne
  | case3 => rfl

/-- C7 amended: decoding a frame carrying a 7-byte UID yields the
hex-encoded UID with every occurrence of `"000000"` removed in one
left-to-right scan (not only a leading run), and this normalization is
the identity — hence idempotent — on input containing no `"000000"`
occurrence (already-stripped input). -/
theorem C7_roundtrip_amended (uid : List Nat) (h : uid.length = 7)
    (padNum removedByte : Nat) :
    get_tag_event (.ok (mkFrame padNum removedByte uid))
      = .ok (some ⟨removedByte != 0, padNum,
                   String.mk (replace000000 (hexlifyChars uid))⟩) ∧
    ∀ l : List Char, contains000000 l = false → replace000000 l = l := by
  constructor
  · have htake :
        List.take 7 (uid ++ [0, 0, 0, 0, 0, 0, 0, 0, 0, 0, 0, 0, 0, 0, 0, 0, 0, 0, 0]) = uid := by
      rw [← h]; exact List.take_left uid _
    simp [get_tag_event, decodePacket, mkFrame, htake]
  · exact replace000000_of_not_contains

/-- Witness for C7 amended at the concrete UID `01 02 03 04 05 06 07`. -/
theorem C7_roundtrip_amended_witness :
    ([1, 2, 3, 4, 5, 6, 7] : List Nat).length = 7 ∧
    (get_tag_event (.ok (mkFrame 1 1 [1, 2, 3, 4, 5, 6, 7]))
        = .ok (some ⟨(1 : Nat) != 0, 1,
                     String.mk (replace000000 (hexlifyChars [1, 2, 3, 4, 5, 6, 7]))⟩) ∧
      ∀ l : List Char, contains000000 l = false → replace000000 l = l) :=
  ⟨by decide, C7_roundtrip_amended [1, 2, 3, 4, 5, 6, 7] (by decide) 1 1⟩

/-- C8: evaluation at the failing input pad 1, on 8, off 8, pulses 4,
colour (10, 20, 30). The code sends byte 10 as 20 — `colour[1]`, the green
channel, repeated — where the claimed layout has 30, the blue channel
`colour[2]`; consequently the checksum also differs. The remaining parts
of the claim (a single 32-byte message, checksum = sum of the header
bytes modulo 256, zero padding) are visible in the computed message. -/
theorem C8_flash_pad_color_blue_channel_bug :
    flash_pad_color 1 8 8 4 ⟨10, 20, 30⟩
      = [0x55, 0x09, 0xc3, 0x03, 1, 8, 8, 4, 10, 20, 20, 107] ++ List.replicate 20 0 ∧
    flashColorSpecMessage 1 8 8 4 ⟨10, 20, 30⟩
      = [0x55, 0x09, 0xc3, 0x03, 1, 8, 8, 4, 10, 20, 30, 117] ++ List.replicate 20 0 ∧
    flash_pad_color 1 8 8 4 ⟨10, 20, 30⟩ ≠ flashColorSpecMessage 1 8 8 4 ⟨10, 20, 30⟩ :=
  ⟨by decide, by decide, by decide⟩

/-- Helper: a successfully resolved tag carries the manager's current
allocation counter as its object identity. -/
theorem get_nfc_tag_by_id_objId (st : NFCTagManagerState) (id : String) (t : NFCTag)
    (h : (get_nfc_tag_by_id st id).1 = .ok t) : t.objId = st.nextObjId := by
  cases hs : storeGetById st.store id with
  | none =>
      simp only [get_nfc_tag_by_id, hs, mkNFCTag, requiredAttributes, List.find?_nil] at h
      exact (Except.ok.inj h) ▸ rfl
  | some m =>
      simp only [get_nfc_tag_by_id, hs, nfc_tag_from_model, mkNFCTag] at h
      cases hf : (requiredAttributes (tagRegistryGet m.type)).find?
          (fun k => (m.attr.lookup k).isNone) with
      | some missing => rw [hf] at h; cases h
      | none => rw [hf] at h; exact (Except.ok.inj h) ▸ rfl

/-- Helper: resolving only advances the allocation counter; the store and
the (never used) `tags` dict are untouched. -/
theorem get_nfc_tag_by_id_snd (st : NFCTagManagerState) (id : String) :
    (get_nfc_tag_by_id st id).2 = { st with nextObjId := st.nextObjId + 1 } := by
  unfold get_nfc_tag_by_id
  cases storeGetById st.store id <;> rfl

/-- C3 counterexample: on an empty store, resolving `"aabb"` twice with no
intervening delete returns two distinct tag objects (object identities 0
and 1), not the same cached instance. -/
theorem C3_two_resolves_distinct_instances :
    ((get_nfc_tag_by_id ⟨[], [], 0⟩ "aabb").1).toOption.map (fun t => t.objId) = some 0 ∧
    ((get_nfc_tag_by_id (get_nfc_tag_by_id ⟨[], [], 0⟩ "aabb").2 "aabb").1).toOption.map
        (fun t => t.objId) = some 1 ∧
    some (0 : Nat) ≠ some 1 :=
  ⟨rfl, rfl, by decide⟩

/-- C3 amended: `get_nfc_tag_by_id` performs no caching — every call
builds a fresh Tag object, so two successful resolutions of the same
identifier with no intervening delete return distinct instances, and the
manager's `tags` dict is never populated. -/
theorem C3_resolve_not_cached (st : NFCTagManagerState) (id : String) (t1 t2 : NFCTag)
    (h1 : (get_nfc_tag_by_id st id).1 = .ok t1)
    (h2 : (get_nfc_tag_by_id (get_nfc_tag_by_id st id).2 id).1 = .ok t2) :
    t1.objId ≠ t2.objId ∧
    (get_nfc_tag_by_id (get_nfc_tag_by_id st id).2 id).2.tags = st.tags := by
  have e1 := get_nfc_tag_by_id_objId _ _ _ h1
  have e2 := get_nfc_tag_by_id_objId _ _ _ h2
  constructor
  · rw [e1, e2, get_nfc_tag_by_id_snd]
    simp
  · rw [get_nfc_tag_by_id_snd, get_nfc_tag_by_id_snd]

/-- Witness for C3 amended: the two resolutions on an empty store with
counter 5 return object identities 5 and 6. -/
theorem C3_resolve_not_cached_witness :
    ((get_nfc_tag_by_id ⟨[], [], 5⟩ "cc").1
        = .ok ⟨5, .unknown, .str "cc", none, none, []⟩) ∧
    ((get_nfc_tag_by_id (get_nfc_tag_by_id ⟨[], [], 5⟩ "cc").2 "cc").1
        = .ok ⟨6, .unknown, .str "cc", none, none, []⟩) ∧
    ((⟨5, .unknown, .str "cc", none, none, []⟩ : NFCTag).objId
        ≠ (⟨6, .unknown, .str "cc", none, none, []⟩ : NFCTag).objId ∧
     (get_nfc_tag_by_id (get_nfc_tag_by_id ⟨[], [], 5⟩ "cc").2 "cc").2.tags
        = (⟨[], [], 5⟩ : NFCTagManagerState).tags) :=
  ⟨rfl, rfl, C3_resolve_not_cached _ _ _ _ rfl rfl⟩

/-- C4: evaluation of all branches of the factory. With no persisted
record the placeholder tag keeps the requested identifier string; but for
any record found in the store — registered type or not —
`nfc_tag_from_model` passes the Python builtin function `id` as the
identifier, so the returned Tag's identity is not the requested
identifier string. Attribute-validation failures do propagate. -/
theorem C4_identifier_is_builtin_id :
    (get_nfc_tag_by_id ⟨[], [], 0⟩ "beef").1
        = .ok ⟨0, .unknown, .str "beef", none, none, []⟩ ∧
    (get_nfc_tag_by_id
        ⟨[⟨"04a1b2", none, none, some "webhook", [("url", .str "http://x")]⟩], [], 0⟩
        "04a1b2").1
      = .ok ⟨0, .webhook, .builtinId, none, none, [("url", .str "http://x")]⟩ ∧
    (get_nfc_tag_by_id ⟨[⟨"feed", none, none, some "spotify", []⟩], [], 0⟩ "feed").1
        = .ok ⟨0, .legacy, .builtinId, none, none, []⟩ ∧
    (get_nfc_tag_by_id ⟨[⟨"dead", none, none, some "webhook", []⟩], [], 0⟩ "dead").1
        = .error (.keyError "url") ∧
    PyVal.builtinId ≠ PyVal.str "04a1b2" :=
  ⟨rfl, rfl, rfl, rfl, by decide⟩

/-- Helper: event processing never touches the `do_loop` flag. -/
theorem processTagEvent_doLoop (s : MainLoopState) (ev : DimensionsTagEvent) :
    (processTagEvent s ev).doLoop = s.doLoop := by
  simp only [processTagEvent]; split <;> rfl

/-- Helper: event processing never touches the error counter. -/
theorem processTagEvent_errorCount (s : MainLoopState) (ev : DimensionsTagEvent) :
    (processTagEvent s ev).errorCount = s.errorCount := by
  simp only [processTagEvent]; split <;> rfl

/-- Helper: a second resolution against the same store succeeds with the
same tag data, differing only in the freshly allocated object identity. -/
theorem get_nfc_tag_by_id_ok_again (st st2 : NFCTagManagerState) (id : String) (t : NFCTag)
    (hst : st2.store = st.store)
    (h : (get_nfc_tag_by_id st id).1 = .ok t) :
    (get_nfc_tag_by_id st2 id).1 = .ok { t with objId := st2.nextObjId } := by
  cases hs : storeGetById st.store id with
  | none =>
      have hs2 : storeGetById st2.store id = none := by rw [hst, hs]
      simp only [get_nfc_tag_by_id, hs, mkNFCTag, requiredAttributes, List.find?_nil] at h
      simp only [get_nfc_tag_by_id, hs2, mkNFCTag, requiredAttributes, List.find?_nil]
      obtain rfl := Except.ok.inj h
      rfl
  | some m =>
      have hs2 : storeGetById st2.store id = some m := by rw [hst, hs]
      simp only [get_nfc_tag_by_id, hs, nfc_tag_from_model, mkNFCTag] at h
      simp only [get_nfc_tag_by_id, hs2, nfc_tag_from_model, mkNFCTag]
      cases hf : (requiredAttributes (tagRegistryGet m.type)).find?
          (fun k => (m.attr.lookup k).isNone) with
      | some missing => rw [hf] at h; cases h
      | none =>
          rw [hf] at h
          obtain rfl := Except.ok.inj h
          rfl

/-- C9 counterexample: starting from the initial loop state with an empty
store, processing two add events for the same identifier `"aa"` leaves
the active set with two entries (the two distinct freshly built tag
objects), not one. -/
theorem C9_double_add_two_entries :
    (processTagEvent (processTagEvent (initMainLoopState ⟨[], [], 0⟩) ⟨false, 1, "aa"⟩)
        ⟨false, 1, "aa"⟩).activeTags = [0, 1] ∧
    ([0, 1] : List Nat).length ≠ 1 :=
  ⟨rfl, by decide⟩

/-- C9 amended: the active set keys on tag object identity and resolution
builds a fresh object per event, so (i) a remove event never matches:
it raises no error and leaves the set and the error feedback unchanged —
in particular removing an identifier not currently tracked is a no-op;
(ii) two add events for the same identifier add two distinct entries
instead of collapsing into one. -/
theorem C9_active_set_amended (s : MainLoopState) (hinv : allocInvariant s)
    (ev : DimensionsTagEvent) (t : NFCTag)
    (hok : (get_nfc_tag_by_id s.mgr ev.identifier).1 = .ok t) :
    (ev.wasRemoved = true →
        (processTagEvent s ev).activeTags = s.activeTags ∧
        (processTagEvent s ev).errorFlashes = s.errorFlashes) ∧
    (ev.wasRemoved = false →
        (processTagEvent (processTagEvent s ev) ev).activeTags.length
          = s.activeTags.length + 2) := by
  have hobj := get_nfc_tag_by_id_objId _ _ _ hok
  have hpair : get_nfc_tag_by_id s.mgr ev.identifier
      = ((get_nfc_tag_by_id s.mgr ev.identifier).1,
         (get_nfc_tag_by_id s.mgr ev.identifier).2) := rfl
  rw [hok, get_nfc_tag_by_id_snd] at hpair
  have hfresh : t.objId ∉ s.activeTags := by
    intro hmem
    exact absurd (hobj ▸ hinv _ hmem) (Nat.lt_irrefl _)
  constructor
  · intro hr
    constructor
    · simp only [processTagEvent, hpair, update_active_tags, hr, if_true]
      exact List.erase_of_not_mem hfresh
    · simp only [processTagEvent, hpair]
  · intro hr
    set s1 := processTagEvent s ev with hs1
    have hstep1 : s1.activeTags = s.activeTags ++ [t.objId] := by
      rw [hs1]
      simp only [processTagEvent, hpair, update_active_tags, hr]
      simp [hfresh]
    have hmgr1 : s1.mgr = { s.mgr with nextObjId := s.mgr.nextObjId + 1 } := by
      rw [hs1]
      simp only [processTagEvent, hpair]
    have hok2 := get_nfc_tag_by_id_ok_again s.mgr s1.mgr ev.identifier t (by rw [hmgr1]) hok
    have hpair2 : get_nfc_tag_by_id s1.mgr ev.identifier
        = ((get_nfc_tag_by_id s1.mgr ev.identifier).1,
           (get_nfc_tag_by_id s1.mgr ev.identifier).2) := rfl
    rw [hok2, get_nfc_tag_by_id_snd] at hpair2
    have hfresh2 : s1.mgr.nextObjId ∉ s1.activeTags := by
      rw [hstep1, hmgr1]
      show s.mgr.nextObjId + 1 ∉ s.activeTags ++ [t.objId]
      intro hmem
      rcases List.mem_append.mp hmem with hold | hnew
      · have := hinv _ hold
        omega
      · rw [List.mem_singleton, hobj] at hnew
        omega
    have hstep2 : (processTagEvent s1 ev).activeTags = s1.activeTags ++ [s1.mgr.nextObjId] := by
      simp only [processTagEvent, hpair2, update_active_tags, hr]
      simp [hfresh2]
    rw [hstep2, hstep1]
    simp [List.length_append]

/-- Witness for C9 amended: initial loop state over an empty store and the
add event for identifier `"aa"`. -/
theorem C9_active_set_amended_witness :
    allocInvariant (initMainLoopState ⟨[], [], 0⟩) ∧
    (get_nfc_tag_by_id (initMainLoopState ⟨[], [], 0⟩).mgr
        (DimensionsTagEvent.mk false 1 "aa").identifier).1
      = .ok ⟨0, .unknown, .str "aa", none, none, []⟩ ∧
    (((DimensionsTagEvent.mk false 1 "aa").wasRemoved = true →
        (processTagEvent (initMainLoopState ⟨[], [], 0⟩) ⟨false, 1, "aa"⟩).activeTags
          = (initMainLoopState ⟨[], [], 0⟩).activeTags ∧
        (processTagEvent (initMainLoopState ⟨[], [], 0⟩) ⟨false, 1, "aa"⟩).errorFlashes
          = (initMainLoopState ⟨[], [], 0⟩).errorFlashes) ∧
     ((DimensionsTagEvent.mk false 1 "aa").wasRemoved = false →
        (processTagEvent (processTagEvent (initMainLoopState ⟨[], [], 0⟩) ⟨false, 1, "aa"⟩)
            ⟨false, 1, "aa"⟩).activeTags.length
          = (initMainLoopState ⟨[], [], 0⟩).activeTags.length + 2)) :=
  ⟨fun x hx => absurd hx (List.not_mem_nil x), rfl,
   C9_active_set_amended _ (fun x hx => absurd hx (List.not_mem_nil x)) _ _ rfl⟩

/-- C1 counterexample: (i) from a fresh loop, five consecutive hard faults
do not produce a clean transition to Stopped — the very first fault
crashes the thread with an uncaught `UnboundLocalError` (`tag_event` is
read before any poll has assigned it); (ii) after one completed poll,
four consecutive hard faults followed by one successful poll leave the
loop polling but the consecutive-error counter at 4, not reset to 0. -/
theorem C1_counter_never_reset :
    (runLoop (initMainLoopState ⟨[], [], 0⟩)
        (List.replicate 5 .usbFault)).crashException = some .nameError ∧
    ((runLoop (initMainLoopState ⟨[], [], 0⟩)
        (.timeout :: (List.replicate 4 .usbFault ++ [.event ⟨false, 1, "aa"⟩]))).state.doLoop
      = true ∧
     (runLoop (initMainLoopState ⟨[], [], 0⟩)
        (.timeout :: (List.replicate 4 .usbFault ++ [.event ⟨false, 1, "aa"⟩]))).state.errorCount
      = 4 ∧
     (4 : Nat) ≠ 0) :=
  ⟨rfl, rfl, rfl, by decide⟩

/-- C1 amended: once at least one poll has completed (the loop's
`tag_event` variable holds the no-event value) and the counter is 0,
exactly five consecutive hard faults make the loop transition to Stopped
without crashing; four consecutive hard faults followed by one successful
poll leave the loop polling, but the consecutive-error counter is never
reset — it retains the value 4. -/
theorem C1_fault_threshold_amended (s : MainLoopState)
    (h1 : s.doLoop = true) (h2 : s.errorCount = 0) (h3 : s.tagEventVar = some none) :
    ((runLoop s (List.replicate 5 .usbFault)).crashException = none ∧
     (runLoop s (List.replicate 5 .usbFault)).state.doLoop = false ∧
     (runLoop s (List.replicate 5 .usbFault)).state.errorCount = 5) ∧
    (∀ ev : DimensionsTagEvent,
      (runLoop s (List.replicate 4 .usbFault ++ [.event ev])).crashException = none ∧
      (runLoop s (List.replicate 4 .usbFault ++ [.event ev])).state.doLoop = true ∧
      (runLoop s (List.replicate 4 .usbFault ++ [.event ev])).state.errorCount = 4) := by
  obtain ⟨mgr, act, dl, ec, tev, pubs, fl⟩ := s
  simp only at h1 h2 h3
  subst h1; subst h2; subst h3
  constructor
  · exact ⟨rfl, rfl, rfl⟩
  · intro ev
    have hred : runLoop ⟨mgr, act, true, 0, some none, pubs, fl⟩
        (List.replicate 4 .usbFault ++ [.event ev])
        = .ok (processTagEvent ⟨mgr, act, true, 4, some (some ev), pubs, fl⟩ ev) := rfl
    rw [hred]
    refine ⟨rfl, ?_, ?_⟩
    · rw [StepResult.state, processTagEvent_doLoop]
    · rw [StepResult.state, processTagEvent_errorCount]

/-- Witness for C1 amended: the initialized loop state over an empty
store and the add event for identifier `"bb"`. -/
theorem C1_fault_threshold_amended_witness :
    ((⟨⟨[], [], 0⟩, [], true, 0, some none, [], []⟩ : MainLoopState).doLoop = true ∧
     (⟨⟨[], [], 0⟩, [], true, 0, some none, [], []⟩ : MainLoopState).errorCount = 0 ∧
     (⟨⟨[], [], 0⟩, [], true, 0, some none, [], []⟩ : MainLoopState).tagEventVar = some none) ∧
    (((runLoop (⟨⟨[], [], 0⟩, [], true, 0, some none, [], []⟩ : MainLoopState)
          (List.replicate 5 .usbFault)).crashException = none ∧
      (runLoop (⟨⟨[], [], 0⟩, [], true, 0, some none, [], []⟩ : MainLoopState)
          (List.replicate 5 .usbFault)).state.doLoop = false ∧
      (runLoop (⟨⟨[], [], 0⟩, [], true, 0, some none, [], []⟩ : MainLoopState)
          (List.replicate 5 .usbFault)).state.errorCount = 5) ∧
     ((runLoop (⟨⟨[], [], 0⟩, [], true, 0, some none, [], []⟩ : MainLoopState)
          (List.replicate 4 .usbFault ++ [.event ⟨true, 2, "bb"⟩])).crashException = none ∧
      (runLoop (⟨⟨[], [], 0⟩, [], true, 0, some none, [], []⟩ : MainLoopState)
          (List.replicate 4 .usbFault ++ [.event ⟨true, 2, "bb"⟩])).state.doLoop = true ∧
      (runLoop (⟨⟨[], [], 0⟩, [], true, 0, some none, [], []⟩ : MainLoopState)
          (List.replicate 4 .usbFault ++ [.event ⟨true, 2, "bb"⟩])).state.errorCount = 4)) :=
  ⟨⟨rfl, rfl, rfl⟩,
   ⟨(C1_fault_threshold_amended _ rfl rfl rfl).1,
    (C1_fault_threshold_amended _ rfl rfl rfl).2 ⟨true, 2, "bb"⟩⟩⟩

/-- C5: a plugin that declares a tag type never has its hook invoked for a
resolved tag that is not an instance of that type; the event is ignored
silently (no exception) and no handler-response message is published. -/
theorem C5_type_filter (p : BasePlugin) (c : PyClass) (isRemove : Bool)
    (ev : DimensionsTagEvent) (tagCls : TagClass) (hook : HookOutcome)
    (hdecl : p.tagClass = some c) (hnotinst : isInstanceOf tagCls c = false) :
    on_tag_event p isRemove ev tagCls hook = .ok ⟨false, none⟩ := by
  simp [on_tag_event, isinstanceTagCheck, hdecl, hnotinst]

/-- Witness for C5: a plugin declaring `WebhookTag` receiving an add event
for an `UnknownTag` ignores it. -/
theorem C5_type_filter_witness :
    (⟨some .webhookTagClass, PURPLE⟩ : BasePlugin).tagClass = some .webhookTagClass ∧
    isInstanceOf .unknown .webhookTagClass = false ∧
    on_tag_event ⟨some .webhookTagClass, PURPLE⟩ false ⟨false, 1, "aa"⟩ .unknown .success
      = .ok ⟨false, none⟩ :=
  ⟨rfl, by decide,
   C5_type_filter ⟨some .webhookTagClass, PURPLE⟩ .webhookTagClass false
     ⟨false, 1, "aa"⟩ .unknown .success rfl (by decide)⟩

/-- C6 counterexample: a remove event passing the type filter whose hook
succeeds publishes `handler_response.remove.success` with no colour
argument at all — it does not carry the plugin's declared success colour. -/
theorem C6_remove_success_has_no_color :
    on_tag_event ⟨some .webhookTagClass, PURPLE⟩ true ⟨true, 2, "aa"⟩ .webhook .success
      = .ok ⟨true, some ⟨"handler_response.remove.success", ⟨true, 2, "aa"⟩, none⟩⟩ ∧
    (none : Option Colour) ≠ some (⟨some .webhookTagClass, PURPLE⟩ : BasePlugin).successColor :=
  ⟨rfl, by decide⟩

/-- C6 amended: for an event that passes the type filter, a hook raising
`NFCTagOperationError` results in the matching `handler_response.*.error`
message and the error does not propagate; a hook returning normally
results in the matching `handler_response.*.success` message, which
carries the plugin's declared success colour for add events and no colour
for remove events. -/
theorem C6_dispatch_amended (p : BasePlugin) (c : PyClass) (isRemove : Bool)
    (ev : DimensionsTagEvent) (tagCls : TagClass)
    (hdecl : p.tagClass = some c) (hinst : isInstanceOf tagCls c = true) :
    on_tag_event p isRemove ev tagCls .raisesOperationError
      = .ok ⟨true, some ⟨if isRemove then "handler_response.remove.error"
                         else "handler_response.add.error", ev, none⟩⟩ ∧
    on_tag_event p isRemove ev tagCls .success
      = .ok ⟨true, some ⟨if isRemove then "handler_response.remove.success"
                         else "handler_response.add.success", ev,
                         if isRemove then none else some p.successColor⟩⟩ := by
  constructor
  · simp only [on_tag_event, isinstanceTagCheck, hdecl, hinst]
    cases isRemove <;> rfl
  · simp only [on_tag_event, isinstanceTagCheck, hdecl, hinst]
    cases isRemove <;> rfl

/-- Witness for C6 amended: a plugin declaring `WebhookTag` handling an
add event for a `WebhookTag`. -/
theorem C6_dispatch_amended_witness :
    (⟨some .webhookTagClass, PURPLE⟩ : BasePlugin).tagClass = some .webhookTagClass ∧
    isInstanceOf .webhook .webhookTagClass = true ∧
    (on_tag_event ⟨some .webhookTagClass, PURPLE⟩ false ⟨false, 3, "cc"⟩ .webhook
        .raisesOperationError
      = .ok ⟨true, some ⟨if false then "handler_response.remove.error"
                         else "handler_response.add.error", ⟨false, 3, "cc"⟩, none⟩⟩ ∧
     on_tag_event ⟨some .webhookTagClass, PURPLE⟩ false ⟨false, 3, "cc"⟩ .webhook .success
      = .ok ⟨true, some ⟨if false then "handler_response.remove.success"
                         else "handler_response.add.success", ⟨false, 3, "cc"⟩,
                         if false then none
                         else some (⟨some .webhookTagClass, PURPLE⟩ : BasePlugin).successColor⟩⟩) :=
  ⟨rfl, by decide,
   C6_dispatch_amended ⟨some .webhookTagClass, PURPLE⟩ .webhookTagClass false
     ⟨false, 3, "cc"⟩ .webhook rfl (by decide)⟩

/-- C10: the plugin constructor accepts an absent tag type, and a plugin
whose `tag_class` is `None` raises `TypeError` at the
`isinstance(nfc_tag, self.tag_class)` filter on every tag event, for
every tag and hook behaviour: no hook runs and no handler-response
message is published. -/
theorem C10_none_tag_class_raises_type_error :
    basePluginInit none = .ok ⟨none, PURPLE⟩ ∧
    ∀ (isRemove : Bool) (ev : DimensionsTagEvent) (tagCls : TagClass) (hook : HookOutcome),
      on_tag_event ⟨none, PURPLE⟩ isRemove ev tagCls hook = .error .typeError :=
  ⟨rfl, fun _ _ _ _ => rfl⟩

end Musicfig
